import Mathlib

/-!
Shallow embedding of the keepalived/VRRP configuration builder, the external
process manager and the VRID allocator of the repository
(neutron/agent/linux/keepalived.py, neutron/agent/linux/external_process.py,
neutron/db/l3_hamode_db.py), together with proofs about the claims of the
specification.

Conventions of the embedding:
* Python strings are `String`; Python `None` for an optional field is `none`.
* Python integers are `Int` (arbitrary precision, as in Python); `'%s' % n`
  on an integer is `toString n`, which agrees with Python `str` on integers.
* Python truthiness on optionals is made explicit (`none`, `0` and `""` are
  falsy).
* Exceptions are `Except`/an error component: a method that can raise returns
  the error together with the (unchanged) receiver when the raise happens
  before any mutation, exactly as in the source, where the `raise` statement
  precedes every assignment.
* Python `for x in lst:` with `lst.remove(x)` in the body is embedded by the
  exact CPython semantics: an internal index that advances by one per
  iteration over the live (mutated) list, `remove` deleting the first
  element `__eq__`-equal to its argument.
-/

namespace Keepalived

/-- VALID_STATES = ['MASTER', 'BACKUP'] (keepalived.py line 28). -/
def VALID_STATES : List String := ["MASTER", "BACKUP"]

/-- VALID_NOTIFY_STATES = ['master', 'backup', 'fault'] (keepalived.py line 29). -/
def VALID_NOTIFY_STATES : List String := ["master", "backup", "fault"]

/-- VALID_AUTH_TYPES = ['AH', 'PASS'] (keepalived.py line 30). -/
def VALID_AUTH_TYPES : List String := ["AH", "PASS"]

/-- The exceptions raised by keepalived.py (lines 35-47). -/
inductive KeepalivedError
  | invalidInstanceState (state : String)
  | invalidNotifyState (state : String)
  | invalidAuthenticationType (type : String)
  deriving DecidableEq, Repr

/-- Python truthiness of an optional integer (`None` and `0` are falsy). -/
def pyTruthyOptInt : Option Int → Bool
  | none => false
  | some n => n != 0

/-- Python truthiness of an optional string (`None` and `""` are falsy). -/
def pyTruthyOptStr : Option String → Bool
  | none => false
  | some s => s != ""

/-- Python `'%s' % x` for an optional integer (`None` prints as "None"). -/
def pyStrOptInt : Option Int → String
  | none => "None"
  | some n => toString n

/-- KeepalivedVipAddress (keepalived.py lines 50-64): a virtual address entry. -/
structure KeepalivedVipAddress where
  ip_address : String
  interface_name : Option String
  deriving DecidableEq, Repr

/-- KeepalivedVipAddress.build_config (lines 57-61): `"<ip> dev <itf>"` when an
interface is set (and truthy), else the bare address. -/
def vipAddressBuildConfig (v : KeepalivedVipAddress) : String :=
  if pyTruthyOptStr v.interface_name then
    v.ip_address ++ " dev " ++ (v.interface_name.getD "")
  else
    v.ip_address

/-- KeepalivedVipAddress.__eq__ (lines 63-64): equality by ip_address only. -/
def vipEq (a b : KeepalivedVipAddress) : Bool :=
  a.ip_address == b.ip_address

/-- KeepalivedVirtualRoute (keepalived.py lines 67-81). -/
structure KeepalivedVirtualRoute where
  destination : String
  nexthop : String
  interface_name : String
  deriving DecidableEq, Repr

/-- KeepalivedVirtualRoute.build_config (lines 75-77). -/
def virtualRouteBuildConfig (r : KeepalivedVirtualRoute) : String :=
  r.destination ++ " via " ++ r.nexthop ++ " dev " ++ r.interface_name

/-- KeepalivedVirtualRoute.__eq__ (lines 79-81): by (destination, nexthop). -/
def routeEq (a b : KeepalivedVirtualRoute) : Bool :=
  a.destination == b.destination && a.nexthop == b.nexthop

/-- KeepalivedGlobaldefs (keepalived.py lines 84-101). -/
structure KeepalivedGlobaldefs where
  notification_emails : List String
  notification_email_from : Option String
  smtp_server : Option String
  smtp_connect_timeout : Option Int
  deriving DecidableEq, Repr

/-- KeepalivedGlobaldefs.build_config (lines 103-123). -/
def globaldefsBuildConfig (g : KeepalivedGlobaldefs) : List String :=
  ["global_defs \x7b"]
  ++ (if g.notification_emails.isEmpty then []
      else ["\tnotification_email \x7b"]
        ++ g.notification_emails.map (fun email => "\t\t" ++ email)
        ++ ["\t\x7d"])
  ++ (if pyTruthyOptStr g.notification_email_from then
        ["\tnotification_email_from " ++ g.notification_email_from.getD ""]
      else [])
  ++ (if pyTruthyOptStr g.smtp_server then
        ["\tsmtp_server " ++ g.smtp_server.getD "",
         "\tsmtp_connect_timeout " ++ pyStrOptInt g.smtp_connect_timeout]
      else [])
  ++ ["\x7d"]

/-- KeepalivedGroup (keepalived.py lines 126-160). `instance_names` is a Python
set, embedded as an insertion-ordered duplicate-free list; `notifiers` is a
dict from notify state to script path, embedded as an insertion-ordered
association list. -/
structure KeepalivedGroup where
  name : String
  instance_names : List String
  notifiers : List (String × String)
  deriving DecidableEq, Repr

/-- KeepalivedGroup.__init__ (lines 129-132). -/
def mkKeepalivedGroup (name : String) : KeepalivedGroup :=
  { name, instance_names := [], notifiers := [] }

/-- set.add for the embedded `instance_names` set. -/
def pySetAdd (l : List String) (x : String) : List String :=
  if l.contains x then l else l ++ [x]

/-- dict assignment `d[k] = v` for the embedded association list. -/
def pyDictSet (l : List (String × String)) (k v : String) : List (String × String) :=
  if l.any (fun p => p.1 == k) then
    l.map (fun p => if p.1 == k then (k, v) else p)
  else
    l ++ [(k, v)]

/-- KeepalivedGroup.add_instance (lines 134-135). -/
def groupAddInstance (g : KeepalivedGroup) (instanceName : String) : KeepalivedGroup :=
  { g with instance_names := pySetAdd g.instance_names instanceName }

/-- KeepalivedGroup.set_notify (lines 140-143): raises
InvalidNotifyStateException for a state outside VALID_NOTIFY_STATES, before
any mutation; otherwise stores the path under the state. -/
def groupSetNotify (g : KeepalivedGroup) (state path : String) :
    Option KeepalivedError × KeepalivedGroup :=
  if !VALID_NOTIFY_STATES.contains state then
    (some (.invalidNotifyState state), g)
  else
    (none, { g with notifiers := pyDictSet g.notifiers state path })

/-- KeepalivedGroup.build_config (lines 153-160). -/
def groupBuildConfig (g : KeepalivedGroup) : List String :=
  ["vrrp_sync_group " ++ g.name ++ " \x7b", "\tgroup \x7b"]
  ++ g.instance_names.map (fun i => "\t\t" ++ i)
  ++ ["\t\x7d"]
  ++ g.notifiers.map (fun p => "\tnotify_" ++ p.1 ++ " \"" ++ p.2 ++ "\"")
  ++ ["\x7d"]

/-- KeepalivedInstance (keepalived.py lines 163-186): the fields set by
__init__. `authentication` is the Python list that is either empty or
`[type, password]`, embedded as an optional pair. -/
structure KeepalivedInstance where
  name : String
  state : String
  interface : String
  vrouter_id : Int
  priority : Int
  nopreempt : Bool
  advert_int : Option Int
  mcast_src_ip : Option String
  track_interfaces : List String
  vip_addresses : List KeepalivedVipAddress
  vip_addresses_excluded : List KeepalivedVipAddress
  virtual_routes : List KeepalivedVirtualRoute
  authentication : Option (String × String)
  garp_master_delay : Option Int
  deriving DecidableEq, Repr

/-- KeepalivedInstance.__init__ (lines 166-186): raises
InvalidInstanceStateException for a state outside VALID_STATES (the check
precedes every field assignment except `name`); all collection fields start
empty. No validation at all is performed on vrouter_id or priority. -/
def mkKeepalivedInstance (name state interface : String) (vrouter_id : Int)
    (priority : Int) (advert_int : Option Int) (mcast_src_ip : Option String)
    (nopreempt : Bool) (garp_master_delay : Option Int) :
    Except KeepalivedError KeepalivedInstance :=
  if !VALID_STATES.contains state then
    .error (.invalidInstanceState state)
  else
    .ok { name, state, interface, vrouter_id, priority, nopreempt, advert_int,
          mcast_src_ip, track_interfaces := [], vip_addresses := [],
          vip_addresses_excluded := [], virtual_routes := [],
          authentication := none, garp_master_delay }

/-- KeepalivedInstance.set_authentication (lines 188-192): raises
InvalidAuthenticationTypeExecption for a type outside VALID_AUTH_TYPES,
before the assignment; otherwise sets authentication to [type, password]. -/
def setAuthentication (inst : KeepalivedInstance) (type password : String) :
    Option KeepalivedError × KeepalivedInstance :=
  if !VALID_AUTH_TYPES.contains type then
    (some (.invalidAuthenticationType type), inst)
  else
    (none, { inst with authentication := some (type, password) })

/-- Python `list.remove(x)`: delete the first element `__eq__`-equal to `x`
(CPython compares `element == x`). -/
def pyRemoveFirst (eq : α → α → Bool) (x : α) : List α → List α
  | [] => []
  | y :: ys => if eq y x then ys else y :: pyRemoveFirst eq x ys

/-- CPython semantics of `for x in lst: if cond(x): lst.remove(x)`: the for
statement keeps an internal index that starts at 0 and advances by one per
iteration over the live list; iteration stops once the index reaches the
current length. The fuel argument bounds the number of iterations; since the
index grows by one each round and the length never grows, `lst.length` rounds
always suffice. -/
def pyForRemoveLoopAux (cond : α → Bool) (eq : α → α → Bool) :
    Nat → Nat → List α → List α
  | 0, _, l => l
  | fuel + 1, i, l =>
    if h : i < l.length then
      let x := l.get ⟨i, h⟩
      if cond x then
        pyForRemoveLoopAux cond eq fuel (i + 1) (pyRemoveFirst eq x l)
      else
        pyForRemoveLoopAux cond eq fuel (i + 1) l
    else
      l

/-- The loop `for x in lst: if cond(x): lst.remove(x)` run from index 0. -/
def pyForRemoveLoop (cond : α → Bool) (eq : α → α → Bool) (l : List α) : List α :=
  pyForRemoveLoopAux cond eq l.length 0 l

/-- The condition `interface_name == vip.interface_name` of lines 196/200:
a Python comparison of a string against an optional; `s == None` is False. -/
def vipOnInterface (ifname : String) (v : KeepalivedVipAddress) : Bool :=
  match v.interface_name with
  | some s => ifname == s
  | none => false

/-- KeepalivedInstance.remove_vips_vroutes_by_interface (lines 194-205):
three in-place removal loops, each with the mutate-while-iterating semantics
of `pyForRemoveLoop`; vips are removed with ip-address equality, routes with
(destination, nexthop) equality. -/
def removeVipsVroutesByInterface (inst : KeepalivedInstance)
    (interface_name : String) : KeepalivedInstance :=
  { inst with
    vip_addresses :=
      pyForRemoveLoop (vipOnInterface interface_name) vipEq inst.vip_addresses,
    vip_addresses_excluded :=
      pyForRemoveLoop (vipOnInterface interface_name) vipEq
        inst.vip_addresses_excluded,
    virtual_routes :=
      pyForRemoveLoop (fun r => interface_name == r.interface_name) routeEq
        inst.virtual_routes }

/-- KeepalivedInstance.remove_vip_by_ip_address (lines 207-214): two in-place
removal loops with the mutate-while-iterating semantics of
`pyForRemoveLoop`. -/
def removeVipByIpAddress (inst : KeepalivedInstance) (ip_address : String) :
    KeepalivedInstance :=
  { inst with
    vip_addresses :=
      pyForRemoveLoop (fun v => ip_address == v.ip_address) vipEq
        inst.vip_addresses,
    vip_addresses_excluded :=
      pyForRemoveLoop (fun v => ip_address == v.ip_address) vipEq
        inst.vip_addresses_excluded }

/-- KeepalivedInstance.build_config (lines 216-280), with the helper
sub-block builders inlined; every optional block follows the corresponding
Python truthiness test. -/
def instanceBuildConfig (inst : KeepalivedInstance) : List String :=
  ["vrrp_instance " ++ inst.name ++ " \x7b",
   "\tstate " ++ inst.state,
   "\tinterface " ++ inst.interface,
   "\tvirtual_router_id " ++ toString inst.vrouter_id,
   "\tpriority " ++ toString inst.priority]
  ++ (if inst.nopreempt then ["\tnopreempt"] else [])
  ++ (if pyTruthyOptInt inst.garp_master_delay then
        ["\tgarp_master_delay " ++ pyStrOptInt inst.garp_master_delay]
      else [])
  ++ (if pyTruthyOptInt inst.advert_int then
        ["\tadvert_int " ++ pyStrOptInt inst.advert_int]
      else [])
  ++ (match inst.authentication with
      | some (type, password) =>
        ["\tauthentication \x7b",
         "\t\tauth_type " ++ type,
         "\t\tauth_pass " ++ password,
         "\t\x7d"]
      | none => [])
  ++ (if pyTruthyOptStr inst.mcast_src_ip then
        ["\tmcast_src_ip " ++ inst.mcast_src_ip.getD ""]
      else [])
  ++ (if inst.track_interfaces.isEmpty then []
      else ["\ttrack_interface \x7b"]
        ++ inst.track_interfaces.map (fun i => "\t\t" ++ i)
        ++ ["\t\x7d"])
  ++ (if inst.vip_addresses.isEmpty then []
      else ["\tvirtual_ipaddress \x7b"]
        ++ inst.vip_addresses.map (fun vip => "\t\t" ++ vipAddressBuildConfig vip)
        ++ ["\t\x7d"])
  ++ (if inst.vip_addresses_excluded.isEmpty then []
      else ["\tvirtual_ipaddress_excluded \x7b"]
        ++ inst.vip_addresses_excluded.map
             (fun vip => "\t\t" ++ vipAddressBuildConfig vip)
        ++ ["\t\x7d"])
  ++ (if inst.virtual_routes.isEmpty then []
      else ["\tvirtual_routes \x7b"]
        ++ inst.virtual_routes.map
             (fun route => "\t\t" ++ virtualRouteBuildConfig route)
        ++ ["\t\x7d"])
  ++ ["\x7d"]

/-- KeepalivedConf (keepalived.py lines 283-327). The `groups` and
`instances` dicts are embedded as insertion-ordered lists of their values
(the dict keys are the `name` fields of the values). -/
structure KeepalivedConf where
  global_defs : Option KeepalivedGlobaldefs
  groups : List KeepalivedGroup
  instances : List KeepalivedInstance
  deriving DecidableEq, Repr

/-- KeepalivedConf.reset (lines 289-292), also the constructor state. -/
def confReset : KeepalivedConf :=
  { global_defs := none, groups := [], instances := [] }

/-- KeepalivedConf.build_config (lines 315-327): global defs first if set,
then the groups in map order, then the instances in map order. The method
only reads `self`; it accumulates into a fresh local list. -/
def confBuildConfig (c : KeepalivedConf) : List String :=
  (match c.global_defs with
   | some gd => globaldefsBuildConfig gd
   | none => [])
  ++ (c.groups.map groupBuildConfig).flatten
  ++ (c.instances.map instanceBuildConfig).flatten

/-- KeepalivedConf.build_config with explicit state passing: the method body
assigns only to the local `config` list and never to an attribute of `self`,
so the post-state it hands back is the pre-state. -/
def confBuildConfigRun (c : KeepalivedConf) : List String × KeepalivedConf :=
  (confBuildConfig c, c)

/-- KeepalivedNotifyScriptManager (keepalived.py lines 409-430): the
`notifiers` dict holding one command list per notify state. -/
structure KeepalivedNotifyScriptManager where
  notifiers : List (String × List String)
  deriving DecidableEq, Repr

/-- KeepalivedNotifyScriptManager.reset_notifiers with no argument
(lines 418-424): the initial mapping. -/
def mkNotifyScriptManager : KeepalivedNotifyScriptManager :=
  { notifiers := [("master", []), ("backup", []), ("fault", [])] }

/-- Append to the bucket of a key in the notifiers mapping
(`self.notifiers[state].append(cmd)`). -/
def bucketAppend (l : List (String × List String)) (k cmd : String) :
    List (String × List String) :=
  l.map (fun p => if p.1 == k then (p.1, p.2 ++ [cmd]) else p)

/-- KeepalivedNotifyScriptManager.add_notify (lines 426-430): raises
InvalidNotifyStateException for a state outside VALID_NOTIFY_STATES, before
any mutation; otherwise appends the command to the state's bucket. -/
def addNotify (m : KeepalivedNotifyScriptManager) (state cmd : String) :
    Option KeepalivedError × KeepalivedNotifyScriptManager :=
  if !VALID_NOTIFY_STATES.contains state then
    (some (.invalidNotifyState state), m)
  else
    (none, { m with notifiers := bucketAppend m.notifiers state cmd })

end Keepalived

namespace ExternalProcess

/-!
Embedding of neutron/agent/linux/external_process.py. The filesystem (PID
files and the `/proc/<pid>/cmdline` records) is an association list from
path to readable content; a path that is absent or unreadable has no entry
(Python's IOError on `open`). Signal delivery (`utils.execute(['kill', ...])`)
is recorded in a signal trace. Paths handed to the manager are taken as
already normalized and absolute (the source's
`os.path.abspath(os.path.normpath(...))`).
-/

/-- The filesystem: path to content of readable files. -/
def FS := List (String × String)

/-- Reading a file: the content of the first entry with the path, none when
the path is absent (IOError). -/
def fsRead : List (String × String) → String → Option String
  | [], _ => none
  | (p, c) :: rest, q => if p == q then some c else fsRead rest q

/-- os.path.exists. -/
def fsExists (fs : List (String × String)) (p : String) : Bool :=
  (fsRead fs p).isSome

/-- os.unlink: remove every entry at the path. -/
def fsUnlink (fs : List (String × String)) (p : String) : List (String × String) :=
  fs.filter (fun e => !(e.1 == p))

/-- Python `int(s)` on the content of a PID file: strip surrounding
whitespace, accept an optional sign followed by one or more digits; anything
else raises ValueError, embedded as `none`. -/
def pyParseInt (s : String) : Option Int :=
  let t := s.trim
  let (sign, digits) :=
    if t.startsWith "-" then ((-1 : Int), t.drop 1)
    else if t.startsWith "+" then ((1 : Int), t.drop 1)
    else ((1 : Int), t)
  if digits.length > 0 && digits.all Char.isDigit then
    some (sign * (Int.ofNat (digits.foldl (fun acc c => acc * 10 + (c.toNat - 48)) 0)))
  else
    none

/-- Python f.readline(): the first line, keeping its newline when present. -/
def pyReadline (s : String) : String :=
  let head := s.takeWhile (fun c => c != '\n')
  if head.length < s.length then head ++ "\n" else head

/-- Python `needle in hay` on strings: substring containment. -/
def strContainsSubstr (hay needle : String) : Bool :=
  (List.range (hay.length + 1)).any (fun i => needle.isPrefixOf (hay.drop i))

/-- ProcessManager (external_process.py lines 38-49): the fields the
filesystem contract depends on. The oslo config handle, root helper and
namespace only parameterize command execution and are not modelled. -/
structure ProcessManager where
  uuid : String
  pids_path : String
  deriving DecidableEq, Repr

/-- ProcessManager.get_pid_file_name (lines 83-94): `{pids_dir}/{uuid}.pid`,
or `{pids_dir}/{uuid}-{sub_name}.pid` when a (truthy) sub_name is given. -/
def getPidFileName (pm : ProcessManager) (sub_name : Option String) : String :=
  pm.pids_path ++ "/" ++ pm.uuid
    ++ (match sub_name with
        | some s => if s != "" then "-" ++ s else ""
        | none => "")
    ++ ".pid"

/-- ProcessManager._pid_from_file (lines 96-107): none when the file cannot
be read (IOError) or its content is not an integer (ValueError); both are
logged, never raised. -/
def pidFromFile (fs : List (String × String)) (file_name : String) : Option Int :=
  (fsRead fs file_name).bind pyParseInt

/-- ProcessManager.pid (lines 109-113). -/
def pmPid (pm : ProcessManager) (fs : List (String × String)) : Option Int :=
  pidFromFile fs (getPidFileName pm none)

/-- The path `/proc/%s/cmdline % pid`. -/
def procCmdlinePath (pid : Int) : String :=
  "/proc/" ++ toString pid ++ "/cmdline"

/-- ProcessManager.active (lines 115-126): false when the pid is absent;
otherwise read the first line of /proc/<pid>/cmdline (false on IOError) and
test whether the uuid occurs in it as a substring. -/
def pmActive (pm : ProcessManager) (fs : List (String × String)) : Bool :=
  match pmPid pm fs with
  | none => false
  | some pid =>
    match fsRead fs (procCmdlinePath pid) with
    | none => false
    | some content => strContainsSubstr (pyReadline content) pm.uuid

/-- The world a ProcessManager acts on: the filesystem plus the trace of
delivered signals, each recorded as (signal name, target pid). -/
structure World where
  fs : List (String × String)
  signals : List (String × Int)
  deriving DecidableEq, Repr

/-- ProcessManager._kill (lines 58-68): read the pid, then execute
`kill -<signal> <pid>` only when the process is active; a stale pid and a
missing pid are only logged. -/
def pmKill (pm : ProcessManager) (signal : String) (w : World) : World :=
  match pmPid pm w.fs with
  | none => w
  | some pid =>
    if pmActive pm w.fs then
      { w with signals := w.signals ++ [(signal, pid)] }
    else
      w

/-- ProcessManager.disable (lines 73-81): signal '9' when kill is true and
'15' otherwise (through _kill), then unlink the main PID file if it
exists. -/
def pmDisable (pm : ProcessManager) (kill : Bool) (w : World) : World :=
  let w1 := if kill then pmKill pm "9" w else pmKill pm "15" w
  let pid_file := getPidFileName pm none
  if fsExists w1.fs pid_file then
    { w1 with fs := fsUnlink w1.fs pid_file }
  else
    w1

end ExternalProcess

namespace L3HaModeDb

/-!
Embedding of the VRID allocation of neutron/db/l3_hamode_db.py. The set of
ha_vr_id values of the tenant's routers gathered from the database query is
taken as a list of naturals; the Python set `VR_ID_RANGE - allocated` is the
ascending list of members of 1..254 not allocated, and `set.pop()` takes its
first element (the source's pop returns an arbitrary member; every claim
proved below only uses that the result is a member).
-/

/-- NoVRIDAvailable (l3_ext_ha_mode.py lines 33-36). -/
inductive L3HaError
  | noVRIDAvailable
  deriving DecidableEq, Repr

/-- VR_ID_RANGE = set(range(1, 255)) (l3_hamode_db.py line 33). -/
def VR_ID_RANGE : List Nat := List.range' 1 254

/-- The set difference `VR_ID_RANGE - allocated_vr_ids` of line 127. -/
def availableVrIds (allocated : List Nat) : List Nat :=
  VR_ID_RANGE.filter (fun v => !allocated.contains v)

/-- L3_HA_NAT_db_mixin._set_vr_id (lines 122-130), as a function of the
allocated identifier set: raise NoVRIDAvailable when no identifier is
available, else assign a member of the available set. -/
def setVrId (allocated : List Nat) : Except L3HaError Nat :=
  match availableVrIds allocated with
  | [] => .error .noVRIDAvailable
  | v :: _ => .ok v

/-- N sequential allocations: each successful allocation joins the allocated
set seen by the next one (the router row is persisted in the same
transaction scope the next query reads). -/
def allocSeq : Nat → List Nat → Except L3HaError (List Nat)
  | 0, acc => .ok acc
  | n + 1, acc =>
    match setVrId acc with
    | .error e => .error e
    | .ok v => allocSeq n (acc ++ [v])

end L3HaModeDb

namespace Keepalived

def scenarioInstance : KeepalivedInstance :=
  { name := "i1", state := "MASTER", interface := "eth0", vrouter_id := 10,
    priority := 50, nopreempt := false, advert_int := none,
    mcast_src_ip := none, track_interfaces := [],
    vip_addresses := [{ ip_address := "10.0.0.1/24", interface_name := some "eth0" },
                      { ip_address := "10.0.0.2/24", interface_name := none }],
    vip_addresses_excluded := [],
    virtual_routes := [{ destination := "0.0.0.0/0", nexthop := "10.0.0.1",
                         interface_name := "eth0" }],
    authentication := none, garp_master_delay := none }

def scenarioGroup : KeepalivedGroup :=
  groupAddInstance (mkKeepalivedGroup "g") "i1"

def scenarioConf : KeepalivedConf :=
  { global_defs := none, groups := [scenarioGroup], instances := [scenarioInstance] }

/-- The line sequence the claim C1 expects, with the trailing space after the
opening brace of the sync-group header. -/
def c1ClaimedLines : List String :=
  ["vrrp_sync_group g \x7b ", "\tgroup \x7b", "\t\ti1", "\t\x7d", "\x7d",
   "vrrp_instance i1 \x7b", "\tstate MASTER", "\tinterface eth0",
   "\tvirtual_router_id 10", "\tpriority 50", "\tvirtual_ipaddress \x7b",
   "\t\t10.0.0.1/24 dev eth0", "\t\t10.0.0.2/24", "\t\x7d",
   "\tvirtual_routes \x7b", "\t\t0.0.0.0/0 via 10.0.0.1 dev eth0", "\t\x7d",
   "\x7d"]

/-- The line sequence build_config actually produces for the scenario: it
differs from `c1ClaimedLines` only in the first line, which carries no
trailing space after the opening brace. -/
def c1ActualLines : List String :=
  ["vrrp_sync_group g \x7b", "\tgroup \x7b", "\t\ti1", "\t\x7d", "\x7d",
   "vrrp_instance i1 \x7b", "\tstate MASTER", "\tinterface eth0",
   "\tvirtual_router_id 10", "\tpriority 50", "\tvirtual_ipaddress \x7b",
   "\t\t10.0.0.1/24 dev eth0", "\t\t10.0.0.2/24", "\t\x7d",
   "\tvirtual_routes \x7b", "\t\t0.0.0.0/0 via 10.0.0.1 dev eth0", "\t\x7d",
   "\x7d"]

/-- C1 counterexample: for the end-to-end scenario of §8 (one group `g`
holding one instance `i1` with two VIPs and one virtual route),
build_config() does not return the claimed line sequence — the claimed
group header `"vrrp_sync_group g \x7b "` carries a trailing space, while the
source (keepalived.py line 154, `'vrrp_sync_group %s \x7b' % self.name`) emits
no trailing space. -/
theorem scenario_build_config_ne_claimed :
    confBuildConfig scenarioConf ≠ c1ClaimedLines := by
  decide

/-- C1 (amended): for the end-to-end scenario of §8, build_config() returns
exactly the claimed line sequence with the sole trailing space of the
`vrrp_sync_group` header removed, including the exact spacing and tabs of
every line. -/
theorem scenario_build_config_exact :
    confBuildConfig scenarioConf = c1ActualLines := by
  decide

end Keepalived

namespace Keepalived

/-- An instance holding two consecutive VIPs on the same interface, the
failing input for remove_vips_vroutes_by_interface. -/
def twoVipsSameInterfaceInstance : KeepalivedInstance :=
  { name := "i1", state := "MASTER", interface := "eth0", vrouter_id := 10,
    priority := 50, nopreempt := false, advert_int := none,
    mcast_src_ip := none, track_interfaces := [],
    vip_addresses := [{ ip_address := "10.0.0.1/24", interface_name := some "eth0" },
                      { ip_address := "10.0.0.2/24", interface_name := some "eth0" }],
    vip_addresses_excluded := [], virtual_routes := [],
    authentication := none, garp_master_delay := none }

/-- C3: remove_vips_vroutes_by_interface removes entries from the list it is
iterating over, so after deleting the VIP at the current index the iterator
skips the entry that slid into that index: with two consecutive VIPs on
eth0, removing by "eth0" leaves the second VIP — whose interface_name is
"eth0" — in the list, while the claim demands that every entry on eth0 be
removed. -/
theorem remove_by_interface_skips_shifted_entry :
    (removeVipsVroutesByInterface twoVipsSameInterfaceInstance "eth0").vip_addresses
        = [{ ip_address := "10.0.0.2/24", interface_name := some "eth0" }]
    ∧ vipOnInterface "eth0"
        { ip_address := "10.0.0.2/24", interface_name := some "eth0" } = true := by
  decide

/-- An instance holding two consecutive VIPs with the same ip_address, the
failing input for remove_vip_by_ip_address. -/
def twoVipsSameIpInstance : KeepalivedInstance :=
  { name := "i1", state := "MASTER", interface := "eth0", vrouter_id := 10,
    priority := 50, nopreempt := false, advert_int := none,
    mcast_src_ip := none, track_interfaces := [],
    vip_addresses := [{ ip_address := "10.0.0.1/24", interface_name := some "eth0" },
                      { ip_address := "10.0.0.1/24", interface_name := some "eth1" }],
    vip_addresses_excluded := [], virtual_routes := [],
    authentication := none, garp_master_delay := none }

/-- C4: remove_vip_by_ip_address removes entries from the list it is
iterating over, so with two consecutive VIPs carrying the same ip_address,
removing by that address leaves the second entry — whose ip_address equals
the argument — in the list, while the claim demands that every entry with
that address be removed. -/
theorem remove_by_ip_skips_shifted_entry :
    (removeVipByIpAddress twoVipsSameIpInstance "10.0.0.1/24").vip_addresses
        = [{ ip_address := "10.0.0.1/24", interface_name := some "eth1" }]
    ∧ ({ ip_address := "10.0.0.1/24", interface_name := some "eth1" } :
        KeepalivedVipAddress).ip_address = "10.0.0.1/24" := by
  decide

/-- Whether an Except value is a success. -/
def exIsOk (e : Except KeepalivedError KeepalivedInstance) : Bool :=
  match e with
  | .ok _ => true
  | .error _ => false

/-- C5: constructing an instance succeeds exactly for states in
VALID_STATES; set_authentication errors exactly for types outside
VALID_AUTH_TYPES and then leaves the instance untouched; group set_notify
and NotifyScriptManager add_notify error exactly for transitions outside
VALID_NOTIFY_STATES and then leave the receiver untouched. Each error is
produced by the validating call itself (the embedded functions of the
constructor and the three setters), and valid values never produce one. -/
theorem validation_fail_fast :
    (∀ n s itf vr pr ai ms np gd,
        (exIsOk (mkKeepalivedInstance n s itf vr pr ai ms np gd)
          = VALID_STATES.contains s)
        ∧ (VALID_STATES.contains s = false →
            mkKeepalivedInstance n s itf vr pr ai ms np gd
              = .error (.invalidInstanceState s)))
    ∧ (∀ (inst : KeepalivedInstance) t p,
        ((setAuthentication inst t p).1
            = if VALID_AUTH_TYPES.contains t then none
              else some (.invalidAuthenticationType t))
        ∧ (VALID_AUTH_TYPES.contains t = false →
            (setAuthentication inst t p).2 = inst))
    ∧ (∀ (g : KeepalivedGroup) s path,
        ((groupSetNotify g s path).1
            = if VALID_NOTIFY_STATES.contains s then none
              else some (.invalidNotifyState s))
        ∧ (VALID_NOTIFY_STATES.contains s = false →
            (groupSetNotify g s path).2 = g))
    ∧ (∀ (m : KeepalivedNotifyScriptManager) s cmd,
        ((addNotify m s cmd).1
            = if VALID_NOTIFY_STATES.contains s then none
              else some (.invalidNotifyState s))
        ∧ (VALID_NOTIFY_STATES.contains s = false →
            (addNotify m s cmd).2 = m)) := by
  refine ⟨?_, ?_, ?_, ?_⟩
  · intro n s itf vr pr ai ms np gd
    by_cases h : s ∈ VALID_STATES <;>
      simp [mkKeepalivedInstance, exIsOk, h]
  · intro inst t p
    by_cases h : t ∈ VALID_AUTH_TYPES <;>
      simp [setAuthentication, h]
  · intro g s path
    by_cases h : s ∈ VALID_NOTIFY_STATES <;>
      simp [groupSetNotify, h]
  · intro m s cmd
    by_cases h : s ∈ VALID_NOTIFY_STATES <;>
      simp [addNotify, h]

/-- Witness for C5: at the concrete invalid type "XX" and invalid notify
state "up", the setters report an error and leave their receivers
unchanged. -/
theorem validation_fail_fast_witness :
    (mkKeepalivedInstance "i1" "maybe" "eth0" 10 50 none none false none
        = .error (.invalidInstanceState "maybe"))
    ∧ ((setAuthentication scenarioInstance "XX" "pw").2 = scenarioInstance)
    ∧ ((groupSetNotify scenarioGroup "up" "/tmp/s.sh").2 = scenarioGroup)
    ∧ ((addNotify mkNotifyScriptManager "up" "cmd").2 = mkNotifyScriptManager) :=
  ⟨(validation_fail_fast.1 "i1" "maybe" "eth0" 10 50 none none false none).2
      (by decide),
   (validation_fail_fast.2.1 scenarioInstance "XX" "pw").2 (by decide),
   (validation_fail_fast.2.2.1 scenarioGroup "up" "/tmp/s.sh").2 (by decide),
   (validation_fail_fast.2.2.2 mkNotifyScriptManager "up" "cmd").2 (by decide)⟩

/-- C9: the constructor performs no range validation on vrouter_id: for
every integer value (0, 300, negative numbers included) and every valid
state, construction succeeds, the field holds the value verbatim, and
build_config emits `"\tvirtual_router_id <value>"` as its fourth line. -/
theorem vrouter_id_not_validated (n itf : String) (v pr : Int) (s : String)
    (hs : s ∈ VALID_STATES) :
    ∃ inst, mkKeepalivedInstance n s itf v pr none none false none = .ok inst
      ∧ inst.vrouter_id = v
      ∧ (instanceBuildConfig inst).get? 3
          = some ("\tvirtual_router_id " ++ toString v) := by
  simp only [VALID_STATES, List.mem_cons, List.mem_singleton,
    List.not_mem_nil, or_false] at hs
  rcases hs with rfl | rfl <;> exact ⟨_, rfl, rfl, rfl⟩

/-- Witness for C9: the out-of-range identifiers 300, 0 and -5 are all
accepted and serialized verbatim. -/
theorem vrouter_id_not_validated_witness :
    (∃ inst, mkKeepalivedInstance "i9" "MASTER" "eth0" 300 50 none none false none
        = .ok inst ∧ inst.vrouter_id = 300
        ∧ (instanceBuildConfig inst).get? 3
            = some ("\tvirtual_router_id " ++ toString (300 : Int)))
    ∧ (∃ inst, mkKeepalivedInstance "i9" "MASTER" "eth0" 0 50 none none false none
        = .ok inst ∧ inst.vrouter_id = 0
        ∧ (instanceBuildConfig inst).get? 3
            = some ("\tvirtual_router_id " ++ toString (0 : Int)))
    ∧ (∃ inst, mkKeepalivedInstance "i9" "BACKUP" "eth0" (-5) 50 none none false none
        = .ok inst ∧ inst.vrouter_id = -5
        ∧ (instanceBuildConfig inst).get? 3
            = some ("\tvirtual_router_id " ++ toString (-5 : Int))) :=
  ⟨vrouter_id_not_validated "i9" "eth0" 300 50 "MASTER" (by decide),
   vrouter_id_not_validated "i9" "eth0" 0 50 "MASTER" (by decide),
   vrouter_id_not_validated "i9" "eth0" (-5) 50 "BACKUP" (by decide)⟩

/-- C8: build_config is pure and idempotent: the state-passing run returns
the configuration unchanged (the method body only reads `self`), and a
second run on the returned state produces the identical line sequence. -/
theorem build_config_pure_idempotent (c : KeepalivedConf) :
    (confBuildConfigRun c).2 = c
    ∧ (confBuildConfigRun ((confBuildConfigRun c).2)).1
        = (confBuildConfigRun c).1 :=
  ⟨rfl, rfl⟩

end Keepalived

namespace ExternalProcess

/-- Unlinking a path makes it unreadable. -/
theorem fsRead_fsUnlink_self (fs : List (String × String)) (p : String) :
    fsRead (fsUnlink fs p) p = none := by
  induction fs with
  | nil => rfl
  | cons e rest ih =>
    cases h : (e.1 == p) with
    | true => simpa [fsUnlink, List.filter_cons, h] using ih
    | false => simpa [fsUnlink, List.filter_cons, h, fsRead] using ih

/-- Unlinking one path leaves every other path readable as before. -/
theorem fsRead_fsUnlink_ne (fs : List (String × String)) (p q : String)
    (h : p ≠ q) : fsRead (fsUnlink fs p) q = fsRead fs q := by
  induction fs with
  | nil => rfl
  | cons e rest ih =>
    simp only [fsUnlink] at ih ⊢
    cases he : (e.1 == p) with
    | true =>
      have he1 : e.1 = p := by simpa using he
      have hq : (e.1 == q) = false := by
        simp only [beq_eq_false_iff_ne, ne_eq, he1]
        exact h
      simp [List.filter_cons, he, fsRead, hq, ih]
    | false =>
      simp [List.filter_cons, he, fsRead, ih]

/-- A path that does not exist reads as none. -/
theorem fsRead_eq_none_of_not_exists (fs : List (String × String)) (p : String)
    (h : fsExists fs p = false) : fsRead fs p = none := by
  cases hr : fsRead fs p with
  | none => rfl
  | some c =>
    unfold fsExists at h
    rw [hr] at h
    simp at h

/-- _kill only appends to the signal trace; the filesystem is untouched. -/
theorem pmKill_fs (pm : ProcessManager) (s : String) (w : World) :
    (pmKill pm s w).fs = w.fs := by
  unfold pmKill
  cases pmPid pm w.fs with
  | none => rfl
  | some pid =>
    by_cases h : pmActive pm w.fs <;> simp [h]

/-- A manager with no readable pid is not active. -/
theorem pmActive_of_pid_none (pm : ProcessManager) (fs : List (String × String))
    (h : pmPid pm fs = none) : pmActive pm fs = false := by
  unfold pmActive
  rw [h]

/-- The signal trace _kill leaves behind: one signal to the pid when the
process is active, nothing otherwise. -/
theorem pmKill_signals (pm : ProcessManager) (s : String) (w : World) :
    (pmKill pm s w).signals =
      w.signals ++
        (if pmActive pm w.fs then [(s, (pmPid pm w.fs).getD 0)] else []) := by
  unfold pmKill
  cases hp : pmPid pm w.fs with
  | none => rw [pmActive_of_pid_none pm w.fs hp]; simp
  | some pid => by_cases h : pmActive pm w.fs <;> simp [h]

/-- C6: active() is True exactly when a pid can be read from the main PID
file and the first line of the readable /proc/pid/cmdline record contains
the resource uuid as a substring; every failure mode (PID file absent,
unreadable or non-integer, /proc record unreadable, uuid not contained) is
a False return, never an exception. -/
theorem active_iff (pm : ProcessManager) (fs : List (String × String)) :
    pmActive pm fs = true ↔
      ∃ pid, pmPid pm fs = some pid ∧
        ∃ content, fsRead fs (procCmdlinePath pid) = some content ∧
          strContainsSubstr (pyReadline content) pm.uuid = true := by
  cases hp : pmPid pm fs with
  | none => simp [pmActive, hp]
  | some pid =>
    cases hr : fsRead fs (procCmdlinePath pid) with
    | none => simp [pmActive, hp, hr]
    | some c => simp [pmActive, hp, hr]

/-- C7: disable(kill) delivers signal 9 when kill is set and 15 otherwise,
and only when the process is active (an inactive handle — a stale PID file
included — gets no signal); in every case, the main PID file is gone
afterwards. -/
theorem disable_spec (pm : ProcessManager) (kill : Bool) (w : World) :
    ((pmDisable pm kill w).signals =
       w.signals ++
         (if pmActive pm w.fs then
            [((if kill then "9" else "15"), (pmPid pm w.fs).getD 0)]
          else []))
    ∧ fsRead (pmDisable pm kill w).fs (getPidFileName pm none) = none := by
  constructor
  · unfold pmDisable
    cases kill <;>
      simp [apply_ite World.signals, apply_ite World.fs, pmKill_signals, pmKill_fs]
  · unfold pmDisable
    cases kill <;>
      simp only [Bool.false_eq_true, if_true, if_false, apply_ite World.fs,
        apply_ite (fun fs => fsRead fs (getPidFileName pm none)), pmKill_fs] <;>
      by_cases h : fsExists w.fs (getPidFileName pm none)
    · simp [h, fsRead_fsUnlink_self]
    · simp [h, fsRead_eq_none_of_not_exists w.fs _ (by simpa using h)]
    · simp [h, fsRead_fsUnlink_self]
    · simp [h, fsRead_eq_none_of_not_exists w.fs _ (by simpa using h)]

/-- A nonempty string has positive length. -/
theorem length_pos_of_ne_empty (s : String) (h : s ≠ "") : 0 < s.length := by
  cases s with
  | mk data =>
    cases data with
    | nil => exact absurd rfl h
    | cons c cs => simp [String.length]

/-- The main PID file name differs from every auxiliary PID file name with a
nonempty sub_name: their lengths differ. -/
theorem getPidFileName_main_ne_sub (pm : ProcessManager) (sub : String)
    (h : sub ≠ "") : getPidFileName pm none ≠ getPidFileName pm (some sub) := by
  intro he
  have hlen := congrArg String.length he
  have hsub : (sub != "") = true := by simpa using h
  simp only [getPidFileName, hsub, if_true, String.length_append] at hlen
  have e0 : ("" : String).length = 0 := rfl
  have e1 : ("/" : String).length = 1 := rfl
  have e2 : ("-" : String).length = 1 := rfl
  have e3 : (".pid" : String).length = 4 := rfl
  rw [e0, e1, e2, e3] at hlen
  have hpos := length_pos_of_ne_empty sub h
  omega

/-- C10: disable unlinks only the main PID file: an auxiliary PID file
`{pids_dir}/{uuid}-{sub_name}.pid` reads afterwards exactly as before,
whatever the kill flag and whether or not the process was active. -/
theorem disable_preserves_aux_pid_files (pm : ProcessManager) (kill : Bool)
    (w : World) (sub : String) (h : sub ≠ "") :
    fsRead (pmDisable pm kill w).fs (getPidFileName pm (some sub))
      = fsRead w.fs (getPidFileName pm (some sub)) := by
  have hne := getPidFileName_main_ne_sub pm sub h
  unfold pmDisable
  cases kill <;> simp only [pmKill_fs] <;>
    by_cases hex : fsExists w.fs (getPidFileName pm none) <;>
    simp [hex, pmKill_fs, fsRead_fsUnlink_ne _ _ _ hne]

/-- A concrete manager for the C10 witness. -/
def witnessPm : ProcessManager := { uuid := "router1", pids_path := "/tmp" }

/-- A concrete world holding a stale main PID file and the vrrp auxiliary
PID file. -/
def witnessWorld : World :=
  { fs := [("/tmp/router1.pid", "4242"), ("/tmp/router1-vrrp.pid", "4243")],
    signals := [] }

/-- Witness for C10: disabling (gracefully) this concrete handle leaves the
router1-vrrp.pid auxiliary file readable as before. -/
theorem disable_preserves_aux_pid_files_witness :
    fsRead (pmDisable witnessPm false witnessWorld).fs
        (getPidFileName witnessPm (some "vrrp"))
      = fsRead witnessWorld.fs (getPidFileName witnessPm (some "vrrp")) :=
  disable_preserves_aux_pid_files witnessPm false witnessWorld "vrrp" (by decide)

end ExternalProcess

namespace L3HaModeDb

/-- Membership in the available set: exactly the identifiers of 1..254 not
already allocated. -/
theorem mem_availableVrIds (A : List Nat) (v : Nat) :
    v ∈ availableVrIds A ↔ 1 ≤ v ∧ v ≤ 254 ∧ v ∉ A := by
  unfold availableVrIds VR_ID_RANGE
  rw [List.mem_filter, List.mem_range'_1]
  constructor
  · rintro ⟨⟨h1, h2⟩, h3⟩
    exact ⟨h1, by omega, by simpa using h3⟩
  · rintro ⟨h1, h2, h3⟩
    exact ⟨⟨h1, by omega⟩, by simpa using h3⟩

/-- The available set is empty exactly when every identifier of 1..254 is
allocated. -/
theorem availableVrIds_eq_nil_iff (A : List Nat) :
    availableVrIds A = [] ↔ ∀ v, 1 ≤ v → v ≤ 254 → v ∈ A := by
  constructor
  · intro h v h1 h2
    by_contra hv
    have : v ∈ availableVrIds A := (mem_availableVrIds A v).mpr ⟨h1, h2, hv⟩
    rw [h] at this
    exact List.not_mem_nil v this
  · intro h
    unfold availableVrIds
    rw [List.filter_eq_nil_iff]
    intro v hv
    have hv' : 1 ≤ v ∧ v < 255 := by
      simpa [VR_ID_RANGE, List.mem_range'_1] using hv
    have := h v hv'.1 (by omega)
    simp [this]

/-- The success branch of _set_vr_id returns a member of the available set. -/
theorem setVrId_ok_mem (A : List Nat) (v : Nat) (h : setVrId A = .ok v) :
    v ∈ availableVrIds A := by
  unfold setVrId at h
  cases hA : availableVrIds A with
  | nil => rw [hA] at h; cases h
  | cons x xs =>
    rw [hA] at h
    simp only [Except.ok.injEq] at h
    subst h
    exact List.mem_cons_self x xs

/-- _set_vr_id raises NoVRIDAvailable exactly when the available set is
empty. -/
theorem setVrId_error_iff (A : List Nat) :
    setVrId A = .error .noVRIDAvailable ↔ availableVrIds A = [] := by
  unfold setVrId
  cases hA : availableVrIds A <;> simp

/-- The 254-element range 1..254 has 254 distinct members. -/
theorem card_VR_ID_RANGE_toFinset : VR_ID_RANGE.toFinset.card = 254 := by
  unfold VR_ID_RANGE
  rw [List.toFinset_card_of_nodup (List.nodup_range' 1 254)]
  simp [List.length_range']

/-- Invariant of the sequential allocator: starting from a duplicate-free
allocated set inside 1..254 with room for N more, N allocations succeed and
keep the set duplicate-free and inside the range. -/
theorem allocSeq_ok (N : Nat) : ∀ acc : List Nat, acc.Nodup →
    (∀ v ∈ acc, 1 ≤ v ∧ v ≤ 254) → acc.length + N ≤ 254 →
    ∃ l, allocSeq N acc = .ok l ∧ l.length = acc.length + N ∧ l.Nodup ∧
      ∀ v ∈ l, 1 ≤ v ∧ v ≤ 254 := by
  induction N with
  | zero => intro acc h1 h2 h3; exact ⟨acc, rfl, by omega, h1, h2⟩
  | succ n ih =>
    intro acc h1 h2 h3
    have hne : availableVrIds acc ≠ [] := by
      intro hnil
      have hall := (availableVrIds_eq_nil_iff acc).mp hnil
      have hsub : VR_ID_RANGE.toFinset ⊆ acc.toFinset := by
        intro v hv
        rw [List.mem_toFinset] at hv ⊢
        have hv' : 1 ≤ v ∧ v < 255 := by
          simpa [VR_ID_RANGE, List.mem_range'_1] using hv
        exact hall v hv'.1 (by omega)
      have hcard2 : acc.toFinset.card = acc.length :=
        List.toFinset_card_of_nodup h1
      have := Finset.card_le_card hsub
      rw [card_VR_ID_RANGE_toFinset, hcard2] at this
      omega
    obtain ⟨v, vs, hA⟩ : ∃ v vs, availableVrIds acc = v :: vs := by
      cases hA : availableVrIds acc with
      | nil => exact absurd hA hne
      | cons x xs => exact ⟨x, xs, rfl⟩
    have hv : v ∈ availableVrIds acc := by
      rw [hA]; exact List.mem_cons_self v vs
    have hv' := (mem_availableVrIds acc v).mp hv
    have hstep : setVrId acc = .ok v := by unfold setVrId; rw [hA]
    have hnodup : (acc ++ [v]).Nodup := by
      rw [List.nodup_append]
      refine ⟨h1, List.nodup_singleton v, ?_⟩
      intro a ha hb
      simp only [List.mem_singleton] at hb
      subst hb
      exact hv'.2.2 ha
    have hbound : ∀ x ∈ acc ++ [v], 1 ≤ x ∧ x ≤ 254 := by
      intro x hx
      rcases List.mem_append.mp hx with h | h
      · exact h2 x h
      · simp only [List.mem_singleton] at h
        subst h
        exact ⟨hv'.1, hv'.2.1⟩
    have hlen : (acc ++ [v]).length + n ≤ 254 := by
      simp only [List.length_append, List.length_singleton]
      omega
    obtain ⟨l, hl1, hl2, hl3, hl4⟩ := ih (acc ++ [v]) hnodup hbound hlen
    refine ⟨l, ?_, ?_, hl3, hl4⟩
    · simp [allocSeq, hstep, hl1]
    · rw [hl2]
      simp only [List.length_append, List.length_singleton]
      omega

/-- allocSeq splits into a first and a second run. -/
theorem allocSeq_add (a b : Nat) : ∀ acc,
    allocSeq (a + b) acc =
      match allocSeq a acc with
      | .ok l => allocSeq b l
      | .error e => .error e := by
  induction a with
  | zero =>
    intro acc
    rw [Nat.zero_add]
    rfl
  | succ n ih =>
    intro acc
    have hshift : n + 1 + b = (n + b) + 1 := by omega
    rw [hshift]
    cases hs : setVrId acc with
    | error e => simp [allocSeq, hs]
    | ok v => simp [allocSeq, hs, ih]

/-- After 254 successful allocations from an empty set, the 255th request
fails with NoVRIDAvailable. -/
theorem allocSeq_255_fails : allocSeq 255 [] = .error .noVRIDAvailable := by
  obtain ⟨l, hl1, hl2, hl3, hl4⟩ :=
    allocSeq_ok 254 [] List.nodup_nil (by simp) (by simp)
  have h255 : (255 : Nat) = 254 + 1 := rfl
  rw [h255, allocSeq_add 254 1 [], hl1]
  have hlen : l.length = 254 := by simpa using hl2
  have hnil : availableVrIds l = [] := by
    rw [availableVrIds_eq_nil_iff]
    intro v h1 h2
    have hsub : l.toFinset ⊆ VR_ID_RANGE.toFinset := by
      intro x hx
      rw [List.mem_toFinset] at hx ⊢
      have hb := hl4 x hx
      simp only [VR_ID_RANGE, List.mem_range'_1]
      omega
    have hcard2 : l.toFinset.card = 254 := by
      rw [List.toFinset_card_of_nodup hl3, hlen]
    have heq : l.toFinset = VR_ID_RANGE.toFinset :=
      Finset.eq_of_subset_of_card_le hsub
        (by rw [card_VR_ID_RANGE_toFinset, hcard2])
    have hvmem : v ∈ VR_ID_RANGE.toFinset := by
      rw [List.mem_toFinset]
      simp only [VR_ID_RANGE, List.mem_range'_1]
      omega
    rw [← heq] at hvmem
    exact List.mem_toFinset.mp hvmem
  have hset : setVrId l = .error .noVRIDAvailable := (setVrId_error_iff l).mpr hnil
  simp [allocSeq, hset]

/-- C2: _set_vr_id computes the available set 1..254 minus the allocated
set, raises NoVRIDAvailable exactly when it is empty, and otherwise returns
a member of it; hence N sequential allocations from an empty tenant yield N
distinct identifiers all in [1,254] for every N up to 254, and the 255th
request fails with NoVRIDAvailable. -/
theorem set_vr_id_spec :
    (∀ A : List Nat,
        (setVrId A = .error .noVRIDAvailable ↔ availableVrIds A = [])
        ∧ (∀ v, v ∈ availableVrIds A ↔ 1 ≤ v ∧ v ≤ 254 ∧ v ∉ A)
        ∧ (∀ v, setVrId A = .ok v → v ∈ availableVrIds A))
    ∧ (∀ N, N ≤ 254 →
        ∃ l, allocSeq N [] = .ok l ∧ l.length = N ∧ l.Nodup
          ∧ ∀ v ∈ l, 1 ≤ v ∧ v ≤ 254)
    ∧ allocSeq 255 [] = .error .noVRIDAvailable := by
  refine ⟨fun A => ⟨setVrId_error_iff A, fun v => mem_availableVrIds A v,
    fun v h => setVrId_ok_mem A v h⟩, ?_, allocSeq_255_fails⟩
  intro N hN
  obtain ⟨l, h1, h2, h3, h4⟩ :=
    allocSeq_ok N [] List.nodup_nil (by simp) (by simpa using hN)
  exact ⟨l, h1, by simpa using h2, h3, h4⟩

/-- Witness for C2: three sequential allocations from an empty tenant
succeed with three distinct in-range identifiers, and the allocation at the
concrete allocated set [2] returns the member 1 of the available set. -/
theorem set_vr_id_spec_witness :
    (∃ l, allocSeq 3 [] = .ok l ∧ l.length = 3 ∧ l.Nodup
      ∧ ∀ v ∈ l, 1 ≤ v ∧ v ≤ 254)
    ∧ 1 ∈ availableVrIds [2] :=
  ⟨set_vr_id_spec.2.1 3 (by decide),
   (set_vr_id_spec.1 [2]).2.2 1 (by rfl)⟩

end L3HaModeDb
